import Mathlib

/-!
Verification of the cell-spec document parser (`src/cellcli/parser.py`)
against its natural-language specification.

The Python source is shallowly embedded: each helper of `parser.py` becomes a
Lean function with the source name (module-private leading underscores dropped
where Lean requires), Python exceptions become `Except CellSpecError`, Python
`dict` becomes an insertion-ordered association list, and Python `int` becomes
Lean `Int` (Python integers are unbounded).  The Python string operations used
by the parser (`strip`, `lower`, `startswith`, `split`, `splitlines`,
`int(...)`) are modelled for ASCII text, which is the alphabet the parser's
fixed tokens and the spec's inputs live in.
-/

namespace CellCli

/-- The single error kind of the program (`errors.CellSpecError`): a
human-readable message.  Every `raise` site of the parser produces this. -/
abbrev CellSpecError := String

/-! ## Python string primitives (ASCII model) -/

/-- Characters stripped by Python `str.strip()` with no argument
(ASCII whitespace: space, tab, newline, carriage return, vertical tab,
form feed). -/
def pyIsSpace (c : Char) : Bool :=
  c = ' ' || c = '\t' || c = '\n' || c = '\x0d' || c = '\x0b' || c = '\x0c'

/-- Drop leading and trailing characters satisfying `p` (Python
`str.strip(chars)` semantics on a char list). -/
def stripBothList (p : Char → Bool) (l : List Char) : List Char :=
  ((l.dropWhile p).reverse.dropWhile p).reverse

/-- Python `s.strip()`. -/
def pyStrip (s : String) : String :=
  ⟨stripBothList pyIsSpace s.data⟩

/-- Python `s.lstrip(chars)` restricted to a single strip character. -/
def pyLstripChar (c : Char) (s : String) : String :=
  ⟨s.data.dropWhile (· = c)⟩

/-- Python `s.rstrip(chars)` restricted to a single strip character. -/
def pyRstripChar (c : Char) (s : String) : String :=
  ⟨(s.data.reverse.dropWhile (· = c)).reverse⟩

/-- Python `s.strip(chars)` restricted to a single strip character
(used for `line.strip("|")`). -/
def pyStripChar (c : Char) (s : String) : String :=
  ⟨stripBothList (· = c) s.data⟩

/-- Python `s.lower()` on ASCII letters (`Char.toLower` maps `A`–`Z` to
`a`–`z` and leaves every other character unchanged, as Python does on the
ASCII range). -/
def pyLower (s : String) : String :=
  ⟨s.data.map Char.toLower⟩

/-- Python `s.startswith(pre)`. -/
def pyStartsWith (s pre : String) : Bool :=
  pre.data.isPrefixOf s.data

/-- Python `s.endswith(suf)`. -/
def pyEndsWith (s suf : String) : Bool :=
  suf.data.isSuffixOf s.data

/-- Everything after the first occurrence of `d`, i.e. Python
`s.split(d, 1)[1]`.  The parser only calls this on lines already known to
contain `d` (they start with `"realm:"` / `"region:"`); on a line without
`d` Python would raise `IndexError`, here we totalise with `""`. -/
def afterFirstChar (d : Char) : List Char → List Char
  | [] => []
  | c :: rest => if c = d then rest else afterFirstChar d rest

/-- Python `s.split(d)` for a one-character separator: no collapsing of
empty fields, `"".split(d) = [""]`. -/
def pySplitChar (d : Char) : List Char → List (List Char)
  | [] => [[]]
  | c :: rest =>
    if c = d then
      [] :: pySplitChar d rest
    else
      match pySplitChar d rest with
      | [] => [[c]]
      | g :: gs => (c :: g) :: gs

/-! ## Python `int(...)` (ASCII model)

Python `int(str)` strips whitespace, accepts one optional sign, then a
non-empty digit string in which single underscores may separate digit
groups.  (Unicode digits and unicode whitespace are outside the model.) -/

/-- Accepts the continuation of a digit string: digits, with every
underscore followed by a digit (`digit+ ( _ digit+ )*` after the first
digit). -/
def pyIntTail : List Char → Bool
  | [] => true
  | '_' :: rest =>
    match rest with
    | [] => false
    | c :: rest2 => c.isDigit && pyIntTail rest2
  | c :: rest => c.isDigit && pyIntTail rest

/-- A non-empty valid unsigned digit string for `int(...)`. -/
def pyIntDigitsOk : List Char → Bool
  | [] => false
  | c :: rest => c.isDigit && pyIntTail rest

/-- Numeric value of a digit string, underscores skipped. -/
def digitsVal (l : List Char) : Nat :=
  l.foldl (fun a c => if c = '_' then a else a * 10 + (c.toNat - 48)) 0

/-- Python `int(s)`: `none` models a raised `ValueError`. -/
def pyInt (s : String) : Option Int :=
  match stripBothList pyIsSpace s.data with
  | '+' :: rest => if pyIntDigitsOk rest then some (digitsVal rest) else none
  | '-' :: rest => if pyIntDigitsOk rest then some (-(digitsVal rest : Int)) else none
  | l => if pyIntDigitsOk l then some (digitsVal l) else none

/-! ## Python `str.splitlines()` -/

/-- Line-break characters recognised by Python `str.splitlines()`
(`\r\n` is handled as one break by the splitter itself). -/
def pyIsLineBreak (c : Char) : Bool :=
  c = '\n' || c = '\x0d' || c = '\x0b' || c = '\x0c' ||
  c = '\x1c' || c = '\x1d' || c = '\x1e' || c = '\x85' ||
  c = '\u2028' || c = '\u2029'

/-- Worker for `pySplitlines`; `cur` holds the current line reversed.  The
trailing segment is emitted only when non-empty, matching Python. -/
def pySplitlinesAux : List Char → List Char → List (List Char)
  | [], cur => if cur.isEmpty then [] else [cur.reverse]
  | '\x0d' :: '\n' :: rest, cur => cur.reverse :: pySplitlinesAux rest []
  | c :: rest, cur =>
    if pyIsLineBreak c then
      cur.reverse :: pySplitlinesAux rest []
    else
      pySplitlinesAux rest (c :: cur)

/-- Python `text.splitlines()`. -/
def pySplitlines (s : String) : List String :=
  (pySplitlinesAux s.data []).map (fun l => ⟨l⟩)

/-! ## Data model (`models.py`) -/

/-- `models.LayerSpec`: one compute layer. -/
structure LayerSpec where
  name : String
  vcpu : Int
  memory_mb : Int
  tasks : Int
deriving Repr, DecidableEq

/-- `models.DatabaseSpec`. -/
structure DatabaseSpec where
  instance_class : String
  storage_gb : Int
deriving Repr, DecidableEq

/-- `models.CacheSpec`. -/
structure CacheSpec where
  node_type : String
  nodes : Int
deriving Repr, DecidableEq

/-- `models.CellSpec`: the root aggregate. -/
structure CellSpec where
  cell_name : String
  realm_name : String
  region : String
  layers : List LayerSpec
  database : DatabaseSpec
  cache : CacheSpec
deriving Repr, DecidableEq

/-! ## Parser helpers (`parser.py`) -/

/-- `parser._parse_cell_name_from_title` (lines 156–170): strip the leading
`#` markers and whitespace, then an optional trailing case-insensitive
`" Cell"` suffix (Python slices `title[:-4]`, dropping the 4 characters of
`"cell"`, and strips the leftover space). -/
def _parse_cell_name_from_title (line : String) : String :=
  let title := pyStrip (pyLstripChar '#' line)
  if pyEndsWith (pyLower title) " cell" then
    pyStrip ⟨title.data.take (title.data.length - 4)⟩
  else
    title

/-- The defensive stray-separator-row test of both table scanners
(lines 214 and 293): `set(line.replace("|", "").strip()) <= {"-", ":"}`. -/
def isSeparatorRow (line : String) : Bool :=
  (stripBothList pyIsSpace (line.data.filter (fun c => !(c == '|')))).all
    (fun c => c == '-' || c == ':')

/-- Cell extraction shared by both table scanners (lines 220 and 298):
`[c.strip() for c in line.strip("|").split("|")]`. -/
def rowCells (line : String) : List String :=
  (pySplitChar '|' (pyStripChar '|' line).data).map
    (fun c => (⟨stripBothList pyIsSpace c⟩ : String))

/-- Whether a line stops a table-scanner data loop (lines 210–211 and
289–290): blank after stripping, or not delimiter-prefixed. -/
def stopsTable (lraw : String) : Bool :=
  pyStrip lraw == "" || !(pyStartsWith (pyStrip lraw) "|")

/-- The blank-line skip loop at the head of both table scanners
(lines 190–191 and 269–270).  The source advances an index over the full
line list; here (as §9 of the spec allows) the cursor is the remaining
suffix of the immutable line sequence. -/
def skipBlankLines (rest : List String) : List String :=
  rest.dropWhile (fun l => pyStrip l == "")

/-- Data-row loop of `parser._parse_layers_table` (lines 206–249): consume
delimiter-prefixed non-blank rows, skipping stray separator rows, and
append one `LayerSpec` per data row (name lowercased, columns 2–4 parsed
as integers, extra columns ignored).  Stops at the first blank or non-`|`
line, returning it unconsumed at the head of the remaining suffix. -/
def layersRows : List String → List LayerSpec →
    Except CellSpecError (List LayerSpec × List String)
  | [], acc => .ok (acc, [])
  | lraw :: rest, acc =>
    let line := pyStrip lraw
    if line == "" || !(pyStartsWith line "|") then
      .ok (acc, lraw :: rest)
    else if isSeparatorRow line then
      layersRows rest acc
    else
      let cells := rowCells line
      if cells.length < 4 then
        .error "Compute Layers row must have at least 4 columns."
      else
        match pyInt (cells.getD 1 ""), pyInt (cells.getD 2 ""), pyInt (cells.getD 3 "") with
        | some vcpu, some memory_mb, some tasks =>
          layersRows rest
            (acc ++ [{ name := pyLower (cells.getD 0 ""), vcpu := vcpu,
                       memory_mb := memory_mb, tasks := tasks }])
        | _, _, _ =>
          .error ("Invalid numeric values in compute layer row: " ++ line)

/-- `parser._parse_layers_table` (lines 173–249): skip blank lines, require
a `|`-prefixed header row and a `|`-prefixed separator row (both consumed
uninspected, matching the `i >= n or not startswith` guards), then run the
data-row loop. -/
def _parse_layers_table (rest : List String) :
    Except CellSpecError (List LayerSpec × List String) :=
  match skipBlankLines rest with
  | [] => .error "Compute Layers table header row is missing or malformed."
  | hdr :: afterHdr =>
    if !(pyStartsWith (pyStrip hdr) "|") then
      .error "Compute Layers table header row is missing or malformed."
    else
      match afterHdr with
      | [] => .error "Compute Layers table separator row is missing."
      | sep :: body =>
        if !(pyStartsWith (pyStrip sep) "|") then
          .error "Compute Layers table separator row is missing."
        else
          layersRows body []

/-- Python `dict` assignment `d[k] = v`: overwrite in place if the key is
present, else append (insertion order preserved). -/
def dictSet (d : List (String × String)) (k v : String) : List (String × String) :=
  if d.any (fun p => p.1 == k) then
    d.map (fun p => if p.1 == k then (k, v) else p)
  else
    d ++ [(k, v)]

/-- Python `d[k]` / `k in d` lookup on the association-list model. -/
def dictFind (d : List (String × String)) (k : String) : Option String :=
  (d.find? (fun p => p.1 == k)).map (fun p => p.2)

/-- Data-row loop of `parser._parse_kv_table` (lines 285–316): rows need at
least 2 cells, the key is stripped and lowercased, empty keys are skipped,
later duplicate keys overwrite earlier ones.  Stops at the first blank or
non-`|` line, returning it unconsumed at the head of the remaining suffix. -/
def kvRows : List String → List (String × String) →
    Except CellSpecError (List (String × String) × List String)
  | [], acc => .ok (acc, [])
  | lraw :: rest, acc =>
    let line := pyStrip lraw
    if line == "" || !(pyStartsWith line "|") then
      .ok (acc, lraw :: rest)
    else if isSeparatorRow line then
      kvRows rest acc
    else
      let cells := rowCells line
      if cells.length < 2 then
        .error ("Key value row must have at least 2 columns: " ++ line)
      else
        let key := pyLower (pyStrip (cells.getD 0 ""))
        kvRows rest (if key == "" then acc else dictSet acc key (pyStrip (cells.getD 1 "")))

/-- `parser._parse_kv_table` (lines 252–316): same header/separator
contract as the layers table, then the key-value data-row loop. -/
def _parse_kv_table (rest : List String) :
    Except CellSpecError (List (String × String) × List String) :=
  match skipBlankLines rest with
  | [] => .error "Key value table header row is missing or malformed."
  | hdr :: afterHdr =>
    if !(pyStartsWith (pyStrip hdr) "|") then
      .error "Key value table header row is missing or malformed."
    else
      match afterHdr with
      | [] => .error "Key value table separator row is missing."
      | sep :: body =>
        if !(pyStartsWith (pyStrip sep) "|") then
          .error "Key value table separator row is missing."
        else
          kvRows body []

/-! ## Document scanner (`parse_cell_spec`, lines 28–77) -/

/-- The accumulators of `parse_cell_spec` (lines 29–35) after the scan
loop: optional metadata plus the layer list and the two settings maps. -/
structure ScanState where
  cell_name : Option String
  realm_name : Option String
  region : Option String
  layers : List LayerSpec
  db_settings : List (String × String)
  cache_settings : List (String × String)
deriving Repr, DecidableEq

/-- Initial accumulator values (lines 29–35). -/
def initState : ScanState :=
  { cell_name := none, realm_name := none, region := none,
    layers := [], db_settings := [], cache_settings := [] }

/-- The scan loop of `parse_cell_spec` (lines 41–77): classify each
stripped line by prefix (title, realm, region, the three section headers),
overwrite the matching accumulator, delegate section bodies to the table
scanners (resuming at their returned cursor), and skip anything else.

The source's `while i < n` loop runs at most `n` iterations because `i`
strictly increases each time round (the table scanners never move the
cursor backwards); `fuel` makes that bound structural.  `parse_cell_spec`
supplies `fuel = lines.length`, which by the invariant
`rest.length ≤ fuel` (the scanners return a suffix of their input) never
reaches the out-of-fuel branch with lines still unread. -/
def scanDocument : Nat → List String → ScanState → Except CellSpecError ScanState
  | _, [], st => .ok st
  | 0, _ :: _, st => .ok st
  | fuel + 1, lraw :: rest, st =>
    let line := pyStrip lraw
    if pyStartsWith line "# " then
      scanDocument fuel rest { st with cell_name := some (_parse_cell_name_from_title line) }
    else if pyStartsWith (pyLower line) "realm:" then
      scanDocument fuel rest
        { st with realm_name := some (⟨stripBothList pyIsSpace (afterFirstChar ':' line.data)⟩ : String) }
    else if pyStartsWith (pyLower line) "region:" then
      scanDocument fuel rest
        { st with region := some (⟨stripBothList pyIsSpace (afterFirstChar ':' line.data)⟩ : String) }
    else if pyStartsWith (pyLower line) "## compute layers" then
      match _parse_layers_table rest with
      | .error e => .error e
      | .ok (ls, rem) => scanDocument fuel rem { st with layers := ls }
    else if pyStartsWith (pyLower line) "## database" then
      match _parse_kv_table rest with
      | .error e => .error e
      | .ok (d, rem) => scanDocument fuel rem { st with db_settings := d }
    else if pyStartsWith (pyLower line) "## cache" then
      match _parse_kv_table rest with
      | .error e => .error e
      | .ok (d, rem) => scanDocument fuel rem { st with cache_settings := d }
    else
      scanDocument fuel rest st

/-! ## Validation and assembly (`parse_cell_spec`, lines 79–153) -/

/-- Python truthiness of an optional string accumulator
(`if not cell_name:` fires on both `None` and `""`). -/
def truthyOpt : Option String → Bool
  | none => false
  | some s => !(s == "")

/-- The required-set enumeration `{"kernel", "platform", "gateway",
"apps"}` listed in Python's `sorted(...)` order, so that filtering it
computes `sorted(required_layers - found_layers)` directly. -/
def requiredLayersSorted : List String :=
  ["apps", "gateway", "kernel", "platform"]

/-- Membership of `r` in `found_layers = {layer.name.lower() for layer in
layers}` (line 97). -/
def foundLayerName (layers : List LayerSpec) (r : String) : Bool :=
  layers.any (fun l => pyLower l.name == r)

/-- `sorted(required_layers - found_layers)` (lines 96–100). -/
def missingLayers (layers : List LayerSpec) : List String :=
  requiredLayersSorted.filter (fun r => !(foundLayerName layers r))

/-- Structural validation and assembly, `parse_cell_spec` lines 79–147:
the ordered cascade of pass-1 checks, interleaved (as in the source) with
the construction of `DatabaseSpec` and `CacheSpec` whose `int(...)`
conversions raise the two "must be an integer" errors.  (The duplicated
`CacheSpec` construction at lines 134–137 recomputes the same value and
is observationally absorbed.) -/
def validateBuild (st : ScanState) : Except CellSpecError CellSpec :=
  if !(truthyOpt st.cell_name) then
    .error "Missing Cell title line (expected '# <name> Cell')."
  else if !(truthyOpt st.realm_name) then
    .error "Missing 'Realm:' line."
  else if !(truthyOpt st.region) then
    .error "Missing 'Region:' line."
  else if st.layers.isEmpty then
    .error "No compute layers found under '## Compute Layers'."
  else if !(missingLayers st.layers).isEmpty then
    .error ("Missing required compute layers: " ++
      String.intercalate ", " (missingLayers st.layers) ++ ".")
  else if st.db_settings.isEmpty then
    .error "No database settings found under '## Database'."
  else if !((dictFind st.db_settings "instance_class").isSome &&
            (dictFind st.db_settings "storage_gb").isSome) then
    .error "Database table must define 'instance_class' and 'storage_gb'."
  else
    match pyInt ((dictFind st.db_settings "storage_gb").getD "") with
    | none => .error "Database 'storage_gb' must be an integer."
    | some sg =>
      let db : DatabaseSpec :=
        { instance_class := (dictFind st.db_settings "instance_class").getD "",
          storage_gb := sg }
      if st.cache_settings.isEmpty then
        .error "No cache settings found under '## Cache'."
      else if !((dictFind st.cache_settings "node_type").isSome &&
                (dictFind st.cache_settings "nodes").isSome) then
        .error "Cache table must define 'node_type' and 'nodes'."
      else
        match pyInt ((dictFind st.cache_settings "nodes").getD "") with
        | none => .error "Cache 'nodes' must be an integer."
        | some nd =>
          let cache : CacheSpec :=
            { node_type := (dictFind st.cache_settings "node_type").getD "",
              nodes := nd }
          .ok { cell_name := st.cell_name.getD "",
                realm_name := st.realm_name.getD "",
                region := st.region.getD "",
                layers := st.layers,
                database := db,
                cache := cache }

/-- The per-layer loop of `parser._validate_cell_spec_numbers`
(lines 328–339): vcpu, then memory_mb, then tasks, layers in order. -/
def validateLayerNumbers : List LayerSpec → Except CellSpecError Unit
  | [] => .ok ()
  | l :: rest =>
    if l.vcpu ≤ 0 then
      .error ("Layer '" ++ l.name ++ "' vCPU must be positive.")
    else if l.memory_mb ≤ 0 then
      .error ("Layer '" ++ l.name ++ "' memory_mb must be positive.")
    else if l.tasks ≤ 0 then
      .error ("Layer '" ++ l.name ++ "' tasks must be positive.")
    else
      validateLayerNumbers rest

/-- `parser._validate_cell_spec_numbers` (lines 318–347): numeric pass —
all layers, then database storage, then cache nodes. -/
def _validate_cell_spec_numbers (cell : CellSpec) : Except CellSpecError Unit :=
  match validateLayerNumbers cell.layers with
  | .error e => .error e
  | .ok _ =>
    if cell.database.storage_gb ≤ 0 then
      .error "Database 'storage_gb' must be positive."
    else if cell.cache.nodes ≤ 0 then
      .error "Cache 'nodes' must be positive."
    else
      .ok ()

/-- Body of `parse_cell_spec` after the file has been read and split into
lines (lines 28–153): scan, structural validation + assembly, numeric
validation. -/
def parse_cell_spec_lines (lines : List String) : Except CellSpecError CellSpec :=
  match scanDocument lines.length lines initState with
  | .error e => .error e
  | .ok st =>
    match validateBuild st with
    | .error e => .error e
    | .ok cell =>
      match _validate_cell_spec_numbers cell with
      | .error e => .error e
      | .ok _ => .ok cell

/-- `parser.parse_cell_spec` (lines 10–153).  The filesystem is a partial
map from paths to file contents; a missing path models `path.exists()`
returning false (lines 20–22), and the content is split into lines as at
lines 25–26. -/
def parse_cell_spec (fs : String → Option String) (path : String) :
    Except CellSpecError CellSpec :=
  match fs path with
  | none => .error ("Spec file not found: " ++ path)
  | some text => parse_cell_spec_lines ((pySplitlines text).map (pyRstripChar '\n'))

/-! ## Support definitions for the statements

Plain lexicographic code-point order on strings (Python's `sorted` order
for ASCII strings) and a substring test, both kernel-computable. -/

/-- Lexicographic code-point comparison of char lists. -/
def charListLt : List Char → List Char → Bool
  | [], [] => false
  | [], _ :: _ => true
  | _ :: _, [] => false
  | a :: as, b :: bs =>
    if a.toNat < b.toNat then true
    else if b.toNat < a.toNat then false
    else charListLt as bs

/-- Python `a < b` on strings (lexicographic by code point). -/
def pyStrLt (a b : String) : Bool :=
  charListLt a.data b.data

/-- `sub` occurs contiguously inside `l`. -/
def seqContains (l sub : List Char) : Bool :=
  if sub.isPrefixOf l then true
  else
    match l with
    | [] => false
    | _ :: t => seqContains t sub

/-- `sub` is a substring of `s` (Python `sub in s`). -/
def strContainsSub (s sub : String) : Bool :=
  seqContains s.data sub.data

/-! ## The spec's ordered validation checks (§4.5)

A second description of the validator, written from the spec's ordered
check list rather than from the code, for the refinement claim about
check order: `specFirstFailingCheck` names the first check that fails,
pass 1 (structural) entirely before pass 2 (numeric), and
`checkMessage` maps each check to the parser's message for it. -/

/-- One validation check of §4.5; the layer checks carry the offending
layer. -/
inductive CheckId where
  | title
  | realm
  | region
  | layersPresent
  | requiredLayerSet
  | dbNonEmpty
  | dbKeys
  | storageInt
  | cacheNonEmpty
  | cacheKeys
  | nodesInt
  | layerVcpu (l : LayerSpec)
  | layerMemory (l : LayerSpec)
  | layerTasks (l : LayerSpec)
  | storagePos
  | nodesPos
deriving Repr, DecidableEq

/-- Pass 2 on the layer list, in parsed order, each layer's fields in the
order vcpu → memory → tasks (spec §4.5 pass 2). -/
def specFirstLayerCheck : List LayerSpec → Option CheckId
  | [] => none
  | l :: rest =>
    if l.vcpu ≤ 0 then some (.layerVcpu l)
    else if l.memory_mb ≤ 0 then some (.layerMemory l)
    else if l.tasks ≤ 0 then some (.layerTasks l)
    else specFirstLayerCheck rest

/-- The first failing check in the spec's fixed order (§4.5): the nine
structural checks 1–9, then — only if every structural check passes —
the numeric checks over the assembled values. -/
def specFirstFailingCheck (st : ScanState) : Option CheckId :=
  if !(truthyOpt st.cell_name) then some .title
  else if !(truthyOpt st.realm_name) then some .realm
  else if !(truthyOpt st.region) then some .region
  else if st.layers.isEmpty then some .layersPresent
  else if !(missingLayers st.layers).isEmpty then some .requiredLayerSet
  else if st.db_settings.isEmpty then some .dbNonEmpty
  else if !((dictFind st.db_settings "instance_class").isSome &&
            (dictFind st.db_settings "storage_gb").isSome) then some .dbKeys
  else if (pyInt ((dictFind st.db_settings "storage_gb").getD "")).isNone then some .storageInt
  else if st.cache_settings.isEmpty then some .cacheNonEmpty
  else if !((dictFind st.cache_settings "node_type").isSome &&
            (dictFind st.cache_settings "nodes").isSome) then some .cacheKeys
  else if (pyInt ((dictFind st.cache_settings "nodes").getD "")).isNone then some .nodesInt
  else
    match specFirstLayerCheck st.layers with
    | some chk => some chk
    | none =>
      if (pyInt ((dictFind st.db_settings "storage_gb").getD "")).getD 0 ≤ 0 then
        some .storagePos
      else if (pyInt ((dictFind st.cache_settings "nodes").getD "")).getD 0 ≤ 0 then
        some .nodesPos
      else none

/-- The parser's error message for each check (the required-set and layer
messages depend on the scanned data). -/
def checkMessage (st : ScanState) : CheckId → CellSpecError
  | .title => "Missing Cell title line (expected '# <name> Cell')."
  | .realm => "Missing 'Realm:' line."
  | .region => "Missing 'Region:' line."
  | .layersPresent => "No compute layers found under '## Compute Layers'."
  | .requiredLayerSet =>
    "Missing required compute layers: " ++
      String.intercalate ", " (missingLayers st.layers) ++ "."
  | .dbNonEmpty => "No database settings found under '## Database'."
  | .dbKeys => "Database table must define 'instance_class' and 'storage_gb'."
  | .storageInt => "Database 'storage_gb' must be an integer."
  | .cacheNonEmpty => "No cache settings found under '## Cache'."
  | .cacheKeys => "Cache table must define 'node_type' and 'nodes'."
  | .nodesInt => "Cache 'nodes' must be an integer."
  | .layerVcpu l => "Layer '" ++ l.name ++ "' vCPU must be positive."
  | .layerMemory l => "Layer '" ++ l.name ++ "' memory_mb must be positive."
  | .layerTasks l => "Layer '" ++ l.name ++ "' tasks must be positive."
  | .storagePos => "Database 'storage_gb' must be positive."
  | .nodesPos => "Cache 'nodes' must be positive."

/-! ## Concrete documents used by the statements -/

/-- The spec's §8 example document, as its line list. -/
def exLines : List String :=
  ["# icc-01 Cell",
   "Realm: dev-east",
   "Region: us-east-2",
   "",
   "## Compute Layers",
   "| Layer | vCPU | Memory MB | Tasks |",
   "|---|---|---|---|",
   "| kernel | 256 | 512 | 2 |",
   "| platform | 512 | 1024 | 2 |",
   "| gateway | 256 | 512 | 2 |",
   "| apps | 512 | 1024 | 2 |",
   "",
   "## Database",
   "| Setting | Value |",
   "|---|---|",
   "| instance_class | db.t3.small |",
   "| storage_gb | 20 |",
   "",
   "## Cache",
   "| Setting | Value |",
   "|---|---|",
   "| node_type | cache.t3.micro |",
   "| nodes | 1 |"]

/-- The aggregate the parser returns for `exLines`. -/
def exCell : CellSpec :=
  { cell_name := "icc-01", realm_name := "dev-east", region := "us-east-2",
    layers := [⟨"kernel", 256, 512, 2⟩, ⟨"platform", 512, 1024, 2⟩,
               ⟨"gateway", 256, 512, 2⟩, ⟨"apps", 512, 1024, 2⟩],
    database := ⟨"db.t3.small", 20⟩, cache := ⟨"cache.t3.micro", 1⟩ }

/-- The scan state the document scanner accumulates for `exLines`. -/
def exState : ScanState :=
  { cell_name := some "icc-01", realm_name := some "dev-east",
    region := some "us-east-2",
    layers := [⟨"kernel", 256, 512, 2⟩, ⟨"platform", 512, 1024, 2⟩,
               ⟨"gateway", 256, 512, 2⟩, ⟨"apps", 512, 1024, 2⟩],
    db_settings := [("instance_class", "db.t3.small"), ("storage_gb", "20")],
    cache_settings := [("node_type", "cache.t3.micro"), ("nodes", "1")] }

/-- `exLines` with one extra compute-layer row `extra` beyond the four
required ones. -/
def extraLayerLines : List String :=
  ["# icc-01 Cell",
   "Realm: dev-east",
   "Region: us-east-2",
   "## Compute Layers",
   "| Layer | vCPU | Memory MB | Tasks |",
   "|---|---|---|---|",
   "| kernel | 256 | 512 | 2 |",
   "| platform | 512 | 1024 | 2 |",
   "| gateway | 256 | 512 | 2 |",
   "| apps | 512 | 1024 | 2 |",
   "| extra | 1 | 1 | 1 |",
   "## Database",
   "| Setting | Value |",
   "|---|---|",
   "| instance_class | db.t3.small |",
   "| storage_gb | 20 |",
   "## Cache",
   "| Setting | Value |",
   "|---|---|",
   "| node_type | cache.t3.micro |",
   "| nodes | 1 |"]

/-- The aggregate parsed from `extraLayerLines`: the four required layers
plus the extra one. -/
def extraCell : CellSpec :=
  { cell_name := "icc-01", realm_name := "dev-east", region := "us-east-2",
    layers := [⟨"kernel", 256, 512, 2⟩, ⟨"platform", 512, 1024, 2⟩,
               ⟨"gateway", 256, 512, 2⟩, ⟨"apps", 512, 1024, 2⟩,
               ⟨"extra", 1, 1, 1⟩],
    database := ⟨"db.t3.small", 20⟩, cache := ⟨"cache.t3.micro", 1⟩ }

/-- `exLines` with the platform layer's Tasks column set to `0`
(numeric-validation failure). -/
def zeroTasksLines : List String :=
  ["# icc-01 Cell",
   "Realm: dev-east",
   "Region: us-east-2",
   "## Compute Layers",
   "| Layer | vCPU | Memory MB | Tasks |",
   "|---|---|---|---|",
   "| kernel | 256 | 512 | 2 |",
   "| platform | 512 | 1024 | 0 |",
   "| gateway | 256 | 512 | 2 |",
   "| apps | 512 | 1024 | 2 |",
   "## Database",
   "| Setting | Value |",
   "|---|---|",
   "| instance_class | db.t3.small |",
   "| storage_gb | 20 |",
   "## Cache",
   "| Setting | Value |",
   "|---|---|",
   "| node_type | cache.t3.micro |",
   "| nodes | 1 |"]

/-- The scan state accumulated for `zeroTasksLines`. -/
def zeroTasksState : ScanState :=
  { cell_name := some "icc-01", realm_name := some "dev-east",
    region := some "us-east-2",
    layers := [⟨"kernel", 256, 512, 2⟩, ⟨"platform", 512, 1024, 0⟩,
               ⟨"gateway", 256, 512, 2⟩, ⟨"apps", 512, 1024, 2⟩],
    db_settings := [("instance_class", "db.t3.small"), ("storage_gb", "20")],
    cache_settings := [("node_type", "cache.t3.micro"), ("nodes", "1")] }

/-- `exLines` with the kernel compute-layer row cut down to 2 cells. -/
def shortRowLines : List String :=
  ["# icc-01 Cell",
   "Realm: dev-east",
   "Region: us-east-2",
   "## Compute Layers",
   "| Layer | vCPU | Memory MB | Tasks |",
   "|---|---|---|---|",
   "| kernel | 1 |",
   "## Database",
   "| Setting | Value |",
   "|---|---|",
   "| instance_class | db.t3.small |",
   "| storage_gb | 20 |"]

/-- A document with two `Realm:` lines (the second should win). -/
def dupRealmLines : List String :=
  ["Realm: old-realm",
   "# icc-01 Cell",
   "Realm: dev-east",
   "Region: us-east-2"]

/-- A scan state whose layers lack `gateway` but whose metadata checks all
pass. -/
def gatewayMissingState : ScanState :=
  { cell_name := some "icc-01", realm_name := some "dev-east",
    region := some "us-east-2",
    layers := [⟨"kernel", 1, 1, 1⟩, ⟨"platform", 1, 1, 1⟩, ⟨"apps", 1, 1, 1⟩],
    db_settings := [("instance_class", "db.t3.small"), ("storage_gb", "20")],
    cache_settings := [("node_type", "cache.t3.micro"), ("nodes", "1")] }

/-- A scan state whose `Realm:` line carried an empty value
(`realm_name = some ""`), everything else well-formed. -/
def emptyRealmState : ScanState :=
  { cell_name := some "icc-01", realm_name := some "",
    region := some "us-east-2",
    layers := [⟨"kernel", 1, 1, 1⟩, ⟨"platform", 1, 1, 1⟩,
               ⟨"gateway", 1, 1, 1⟩, ⟨"apps", 1, 1, 1⟩],
    db_settings := [("instance_class", "db.t3.small"), ("storage_gb", "20")],
    cache_settings := [("node_type", "cache.t3.micro"), ("nodes", "1")] }

/-- Field-wise relation between two scan runs started from accumulator
states `st₁` and `st₂`: every accumulator field either passed through the
whole scan untouched in both runs, or was overwritten to the same value in
both — i.e. the value accumulated from the last occurrence of a metadata
line or section is the one that stands, regardless of what was stored
before. -/
def fieldFrame (st₁ st₂ r₁ r₂ : ScanState) : Prop :=
  ((r₁.cell_name = st₁.cell_name ∧ r₂.cell_name = st₂.cell_name) ∨
     r₁.cell_name = r₂.cell_name) ∧
  ((r₁.realm_name = st₁.realm_name ∧ r₂.realm_name = st₂.realm_name) ∨
     r₁.realm_name = r₂.realm_name) ∧
  ((r₁.region = st₁.region ∧ r₂.region = st₂.region) ∨
     r₁.region = r₂.region) ∧
  ((r₁.layers = st₁.layers ∧ r₂.layers = st₂.layers) ∨
     r₁.layers = r₂.layers) ∧
  ((r₁.db_settings = st₁.db_settings ∧ r₂.db_settings = st₂.db_settings) ∨
     r₁.db_settings = r₂.db_settings) ∧
  ((r₁.cache_settings = st₁.cache_settings ∧ r₂.cache_settings = st₂.cache_settings) ∨
     r₁.cache_settings = r₂.cache_settings)

/-- The aggregate assembled by `parse_cell_spec` lines 110–147 once every
structural check has passed, expressed directly from the scan state (the
`int(...)` conversions have succeeded, so `getD 0` selects their values). -/
def buildCell (st : ScanState) : CellSpec :=
  { cell_name := st.cell_name.getD "", realm_name := st.realm_name.getD "",
    region := st.region.getD "", layers := st.layers,
    database := { instance_class := (dictFind st.db_settings "instance_class").getD "",
                  storage_gb := (pyInt ((dictFind st.db_settings "storage_gb").getD "")).getD 0 },
    cache := { node_type := (dictFind st.cache_settings "node_type").getD "",
               nodes := (pyInt ((dictFind st.cache_settings "nodes").getD "")).getD 0 } }

/-! # Theorems -/

/-- C1: parsing the spec's example document — title `# icc-01 Cell`,
`Realm: dev-east`, `Region: us-east-2`, the four compute-layer rows
kernel(256,512,2), platform(512,1024,2), gateway(256,512,2),
apps(512,1024,2), database `db.t3.small`/`20`, cache `cache.t3.micro`/`1`
— succeeds and returns exactly the expected `CellSpec` (cell name
`icc-01`, that realm, region, those four layers, that database and
cache). -/
theorem c1_example_document_parses : parse_cell_spec_lines exLines = .ok exCell := by
  rfl

/-- C9: for every filesystem and every path that the filesystem does not
map to a file, `parse_cell_spec` fails with the distinguished spec error
naming the missing file — not with any other outcome. -/
theorem c9_missing_file_is_spec_error (fs : String → Option String) (path : String)
    (h : fs path = none) :
    parse_cell_spec fs path = .error ("Spec file not found: " ++ path) := by
  unfold parse_cell_spec
  rw [h]

theorem c9_missing_file_is_spec_error_witness :
    parse_cell_spec (fun _ => none) "cell.md" =
      .error ("Spec file not found: " ++ "cell.md") :=
  c9_missing_file_is_spec_error (fun _ => none) "cell.md" rfl

/-- C10: a metadata accumulator holding the empty string (what the scan
stores for a line like `Realm:   ` whose value is empty after trimming)
is indistinguishable at the public interface from the accumulator holding
nothing (the line absent): validation fails, and with exactly the same
result (Python's falsy test `if not realm_name` conflates `""` and
`None`).  Stated for each of the three metadata fields. -/
theorem truthyOpt_some_empty : truthyOpt (some "") = false := rfl

theorem truthyOpt_none : truthyOpt none = false := rfl

theorem c10_empty_metadata_like_absent (st : ScanState) :
    (st.cell_name = some "" →
      validateBuild st = validateBuild { st with cell_name := none } ∧
      ∃ e, validateBuild st = .error e) ∧
    (st.realm_name = some "" →
      validateBuild st = validateBuild { st with realm_name := none } ∧
      ∃ e, validateBuild st = .error e) ∧
    (st.region = some "" →
      validateBuild st = validateBuild { st with region := none } ∧
      ∃ e, validateBuild st = .error e) := by
  refine ⟨fun h => ?_, fun h => ?_, fun h => ?_⟩
  · exact ⟨by simp [validateBuild, h, truthyOpt_some_empty, truthyOpt_none],
      "Missing Cell title line (expected '# <name> Cell').",
      by simp [validateBuild, h, truthyOpt_some_empty, truthyOpt_none]⟩
  · cases hcn : truthyOpt st.cell_name with
    | false =>
      exact ⟨by simp [validateBuild, hcn, h, truthyOpt_some_empty, truthyOpt_none],
        "Missing Cell title line (expected '# <name> Cell').",
        by simp [validateBuild, hcn, h, truthyOpt_some_empty, truthyOpt_none]⟩
    | true =>
      exact ⟨by simp [validateBuild, hcn, h, truthyOpt_some_empty, truthyOpt_none],
        "Missing 'Realm:' line.",
        by simp [validateBuild, hcn, h, truthyOpt_some_empty, truthyOpt_none]⟩
  · cases hcn : truthyOpt st.cell_name with
    | false =>
      exact ⟨by simp [validateBuild, hcn, h, truthyOpt_some_empty, truthyOpt_none],
        "Missing Cell title line (expected '# <name> Cell').",
        by simp [validateBuild, hcn, h, truthyOpt_some_empty, truthyOpt_none]⟩
    | true =>
      cases hrm : truthyOpt st.realm_name with
      | false =>
        exact ⟨by simp [validateBuild, hcn, hrm, h, truthyOpt_some_empty, truthyOpt_none],
          "Missing 'Realm:' line.",
          by simp [validateBuild, hcn, hrm, h, truthyOpt_some_empty, truthyOpt_none]⟩
      | true =>
        exact ⟨by simp [validateBuild, hcn, hrm, h, truthyOpt_some_empty, truthyOpt_none],
          "Missing 'Region:' line.",
          by simp [validateBuild, hcn, hrm, h, truthyOpt_some_empty, truthyOpt_none]⟩

theorem c10_empty_metadata_like_absent_witness :
    validateBuild emptyRealmState = validateBuild { emptyRealmState with realm_name := none } ∧
    ∃ e, validateBuild emptyRealmState = .error e :=
  (c10_empty_metadata_like_absent emptyRealmState).2.1 rfl

/-- Helper: the per-layer numeric pass succeeds on a list whose quantities
are all at least 1. -/
theorem validateLayerNumbers_ok
    (ls : List LayerSpec)
    (h : ∀ l ∈ ls, 1 ≤ l.vcpu ∧ 1 ≤ l.memory_mb ∧ 1 ≤ l.tasks) :
    validateLayerNumbers ls = .ok () := by
  induction ls with
  | nil => rfl
  | cons l rest ih =>
    obtain ⟨h1, h2, h3⟩ := h l (by simp)
    have hv : ¬ (l.vcpu ≤ 0) := by omega
    have hm : ¬ (l.memory_mb ≤ 0) := by omega
    have ht : ¬ (l.tasks ≤ 0) := by omega
    simp only [validateLayerNumbers, if_neg hv, if_neg hm, if_neg ht]
    exact ih (fun x hx => h x (by simp [hx]))

/-- Helper: the per-layer numeric pass fails on a list containing a layer
with a zero-or-negative quantity. -/
theorem validateLayerNumbers_error
    (ls : List LayerSpec)
    (h : ∃ l ∈ ls, l.vcpu ≤ 0 ∨ l.memory_mb ≤ 0 ∨ l.tasks ≤ 0) :
    ∃ e, validateLayerNumbers ls = .error e := by
  induction ls with
  | nil => simp at h
  | cons l rest ih =>
    by_cases hv : l.vcpu ≤ 0
    · exact ⟨"Layer '" ++ l.name ++ "' vCPU must be positive.",
        by simp [validateLayerNumbers, hv]⟩
    · by_cases hm : l.memory_mb ≤ 0
      · exact ⟨"Layer '" ++ l.name ++ "' memory_mb must be positive.",
          by simp [validateLayerNumbers, hv, hm]⟩
      · by_cases ht : l.tasks ≤ 0
        · exact ⟨"Layer '" ++ l.name ++ "' tasks must be positive.",
            by simp [validateLayerNumbers, hv, hm, ht]⟩
        · obtain ⟨x, hx, hbad⟩ := h
          rcases List.mem_cons.mp hx with rfl | hx2
          · exact absurd hbad (by push_neg; omega)
          · obtain ⟨e, he⟩ := ih ⟨x, hx2, hbad⟩
            exact ⟨e, by simp [validateLayerNumbers, hv, hm, ht, he]⟩

/-- C2: for every input that passes structural validation (the document
scan succeeded and `validateBuild` produced the assembled aggregate),
parsing fails numeric validation when any of the quantities vcpu,
memory_mb, tasks (of any layer), storage_gb, or nodes is zero or
negative, and parsing succeeds (returning that aggregate) when all of
those quantities are at least 1. -/
theorem c2_numeric_validation (lines : List String) (st : ScanState) (cell : CellSpec)
    (hscan : scanDocument lines.length lines initState = .ok st)
    (hbuild : validateBuild st = .ok cell) :
    (((∃ l ∈ cell.layers, l.vcpu ≤ 0 ∨ l.memory_mb ≤ 0 ∨ l.tasks ≤ 0) ∨
        cell.database.storage_gb ≤ 0 ∨ cell.cache.nodes ≤ 0) →
      ∃ e, parse_cell_spec_lines lines = .error e) ∧
    ((∀ l ∈ cell.layers, 1 ≤ l.vcpu ∧ 1 ≤ l.memory_mb ∧ 1 ≤ l.tasks) →
      1 ≤ cell.database.storage_gb → 1 ≤ cell.cache.nodes →
      parse_cell_spec_lines lines = .ok cell) := by
  unfold parse_cell_spec_lines
  simp only [hscan]
  simp only [hbuild]
  constructor
  · rintro (hbad | hbad | hbad)
    · obtain ⟨e, he⟩ := validateLayerNumbers_error cell.layers hbad
      exact ⟨e, by simp [_validate_cell_spec_numbers, he]⟩
    · cases hln : validateLayerNumbers cell.layers with
      | error e => exact ⟨e, by simp [_validate_cell_spec_numbers, hln]⟩
      | ok u =>
        exact ⟨"Database 'storage_gb' must be positive.",
          by simp [_validate_cell_spec_numbers, hln, if_pos hbad]⟩
    · cases hln : validateLayerNumbers cell.layers with
      | error e => exact ⟨e, by simp [_validate_cell_spec_numbers, hln]⟩
      | ok u =>
        by_cases hsg : cell.database.storage_gb ≤ 0
        · exact ⟨"Database 'storage_gb' must be positive.",
            by simp [_validate_cell_spec_numbers, hln, if_pos hsg]⟩
        · exact ⟨"Cache 'nodes' must be positive.",
            by simp [_validate_cell_spec_numbers, hln, if_neg hsg, if_pos hbad]⟩
  · intro hpos hsg hnd
    have h1 : ¬ (cell.database.storage_gb ≤ 0) := by omega
    have h2 : ¬ (cell.cache.nodes ≤ 0) := by omega
    simp [_validate_cell_spec_numbers, validateLayerNumbers_ok cell.layers hpos,
      if_neg h1, if_neg h2]

theorem c2_numeric_validation_witness :
    parse_cell_spec_lines exLines = .ok exCell :=
  (c2_numeric_validation exLines exState exCell rfl rfl).2
    (by decide) (by decide) (by decide)

/-- C3: when the metadata checks pass and at least one layer was parsed,
but any of the four required layer names is absent from the parsed rows,
structural validation fails with the error listing exactly the missing
names — each required-but-not-found name and nothing else — comma-joined
and alphabetically sorted. -/
theorem c3_missing_required_layers (st : ScanState)
    (h1 : truthyOpt st.cell_name = true)
    (h2 : truthyOpt st.realm_name = true)
    (h3 : truthyOpt st.region = true)
    (h4 : st.layers ≠ [])
    (h5 : missingLayers st.layers ≠ []) :
    validateBuild st = .error ("Missing required compute layers: " ++
        String.intercalate ", " (missingLayers st.layers) ++ ".") ∧
    List.Pairwise (fun a b => pyStrLt a b = true) (missingLayers st.layers) ∧
    (∀ r, r ∈ missingLayers st.layers ↔
      (r ∈ requiredLayersSorted ∧ ∀ l ∈ st.layers, pyLower l.name ≠ r)) := by
  refine ⟨?_, ?_, ?_⟩
  · have h4' : st.layers.isEmpty = false := by
      cases hl : st.layers with
      | nil => exact absurd hl h4
      | cons a as => rfl
    have h5' : (missingLayers st.layers).isEmpty = false := by
      cases hm : missingLayers st.layers with
      | nil => exact absurd hm h5
      | cons a as => rfl
    simp [validateBuild, h1, h2, h3, h4', h5']
  · exact List.Pairwise.sublist (List.filter_sublist _) (by decide)
  · intro r
    simp only [missingLayers, List.mem_filter, foundLayerName, Bool.not_eq_true',
      List.any_eq_false, beq_iff_eq]

theorem c3_missing_required_layers_witness :
    validateBuild gatewayMissingState = .error ("Missing required compute layers: " ++
        String.intercalate ", " (missingLayers gatewayMissingState.layers) ++ ".") ∧
    List.Pairwise (fun a b => pyStrLt a b = true) (missingLayers gatewayMissingState.layers) ∧
    (∀ r, r ∈ missingLayers gatewayMissingState.layers ↔
      (r ∈ requiredLayersSorted ∧ ∀ l ∈ gatewayMissingState.layers, pyLower l.name ≠ r)) :=
  c3_missing_required_layers gatewayMissingState rfl rfl rfl
    (by decide) (by decide)

/-- Helper: `Char.ofNat` round-trips on valid code points below the
surrogate range. -/
theorem char_toNat_ofNat_valid (n : Nat) (h : n < 0xd800) : (Char.ofNat n).toNat = n := by
  have hv : n.isValidChar := Or.inl h
  rw [Char.ofNat, dif_pos hv]
  simp [Char.ofNatAux, Char.toNat, UInt32.toNat, BitVec.toNat_ofNatLt]

/-- Helper: ASCII lowercasing is idempotent on characters. -/
theorem char_toLower_idem (c : Char) : c.toLower.toLower = c.toLower := by
  unfold Char.toLower
  by_cases h : c.toNat ≥ 65 ∧ c.toNat ≤ 90
  · rw [if_pos h]
    have hval : (Char.ofNat (c.toNat + 32)).toNat = c.toNat + 32 :=
      char_toNat_ofNat_valid _ (by omega)
    rw [if_neg (by omega)]
  · rw [if_neg h, if_neg h]

/-- Helper: `pyLower` is idempotent. -/
theorem pyLower_idem (s : String) : pyLower (pyLower s) = pyLower s := by
  show (⟨(s.data.map Char.toLower).map Char.toLower⟩ : String) = ⟨s.data.map Char.toLower⟩
  rw [List.map_map]
  exact congrArg String.mk (List.map_congr_left (fun c _ => char_toLower_idem c))

/-- Helper: every layer emitted by the layers-table data loop has a
lowercased name (the loop builds each `LayerSpec` with
`name := pyLower …`). -/
theorem layersRows_names_lower :
    ∀ (body : List String) (acc ls : List LayerSpec) (rem : List String),
      layersRows body acc = .ok (ls, rem) →
      (∀ l ∈ acc, l.name = pyLower l.name) →
      ∀ l ∈ ls, l.name = pyLower l.name := by
  intro body
  induction body with
  | nil =>
    intro acc ls rem h hacc
    simp only [layersRows] at h
    obtain ⟨rfl, rfl⟩ : ls = acc ∧ rem = [] := by
      cases h
      exact ⟨rfl, rfl⟩
    exact hacc
  | cons lraw rest ih =>
    intro acc ls rem h hacc
    simp only [layersRows] at h
    split at h
    · obtain ⟨rfl, rfl⟩ : ls = acc ∧ rem = lraw :: rest := by
        cases h
        exact ⟨rfl, rfl⟩
      exact hacc
    · split at h
      · exact ih acc ls rem h hacc
      · split at h
        · cases h
        · split at h
          · apply ih _ ls rem h
            intro l hl
            rcases List.mem_append.mp hl with hl2 | hl2
            · exact hacc l hl2
            · simp only [List.mem_singleton] at hl2
              subst hl2
              exact (pyLower_idem _).symm
          · cases h

/-- Helper: the names of the layers returned by `_parse_layers_table` are
lowercased. -/
theorem parse_layers_table_names_lower (rest : List String)
    (ls : List LayerSpec) (rem : List String)
    (h : _parse_layers_table rest = .ok (ls, rem)) :
    ∀ l ∈ ls, l.name = pyLower l.name := by
  unfold _parse_layers_table at h
  split at h
  · cases h
  · split at h
    · cases h
    · split at h
      · cases h
      · split at h
        · cases h
        · exact layersRows_names_lower _ [] ls rem h (by simp)

/-- Helper: the document scan preserves and establishes lowercased layer
names. -/
theorem scanDocument_layers_lower :
    ∀ (fuel : Nat) (rest : List String) (st r : ScanState),
      scanDocument fuel rest st = .ok r →
      (∀ l ∈ st.layers, l.name = pyLower l.name) →
      ∀ l ∈ r.layers, l.name = pyLower l.name := by
  intro fuel
  induction fuel with
  | zero =>
    intro rest st r h hst
    cases rest with
    | nil =>
      cases h
      exact hst
    | cons a as =>
      cases h
      exact hst
  | succ fuel ih =>
    intro rest st r h hst
    cases rest with
    | nil =>
      cases h
      exact hst
    | cons lraw rest2 =>
      simp only [scanDocument] at h
      split at h
      · exact ih rest2 _ r h hst
      · split at h
        · exact ih rest2 _ r h hst
        · split at h
          · exact ih rest2 _ r h hst
          · split at h
            · split at h
              · cases h
              · rename_i ls rem heq
                exact ih _ _ r h (parse_layers_table_names_lower rest2 ls rem heq)
            · split at h
              · split at h
                · cases h
                · exact ih _ _ r h hst
              · split at h
                · split at h
                  · cases h
                  · exact ih _ _ r h hst
                · exact ih rest2 st r h hst

/-- Helper: inversion of a successful `validateBuild`: the aggregate's
layers are exactly the scanned layers and no required layer was missing. -/
theorem validateBuild_ok_inv (st : ScanState) (cell : CellSpec)
    (h : validateBuild st = .ok cell) :
    cell.layers = st.layers ∧ missingLayers st.layers = [] := by
  unfold validateBuild at h
  split at h
  · cases h
  · split at h
    · cases h
    · split at h
      · cases h
      · split at h
        · cases h
        · split at h
          · cases h
          · split at h
            · cases h
            · split at h
              · cases h
              · split at h
                · cases h
                · split at h
                  · cases h
                  · split at h
                    · cases h
                    · split at h
                      · cases h
                      · cases h
                        refine ⟨rfl, ?_⟩
                        simp_all [List.isEmpty_iff]

/-- Helper: inversion of a successful parse into its three stages. -/
theorem parse_ok_inv (lines : List String) (cell : CellSpec)
    (h : parse_cell_spec_lines lines = .ok cell) :
    ∃ st, scanDocument lines.length lines initState = .ok st ∧
      validateBuild st = .ok cell ∧
      _validate_cell_spec_numbers cell = .ok () := by
  unfold parse_cell_spec_lines at h
  cases hscan : scanDocument lines.length lines initState with
  | error e =>
    simp only [hscan] at h
    exact Except.noConfusion h
  | ok st =>
    simp only [hscan] at h
    cases hbuild : validateBuild st with
    | error e =>
      simp only [hbuild] at h
      exact Except.noConfusion h
    | ok c2 =>
      simp only [hbuild] at h
      cases hnum : _validate_cell_spec_numbers c2 with
      | error e =>
        simp only [hnum] at h
        exact Except.noConfusion h
      | ok u =>
        simp only [hnum] at h
        cases h
        cases u
        exact ⟨st, rfl, hbuild, hnum⟩

/-- C5 counterexample: a successfully parsed document may contain a layer
whose name is outside the fixed closed set — an extra row `extra` passes
the whole parse, so the claimed closed-set membership fails. -/
theorem c5_closed_set_counterexample :
    parse_cell_spec_lines extraLayerLines = .ok extraCell ∧
    ¬ (∀ l ∈ extraCell.layers, l.name = pyLower l.name ∧ l.name ∈ requiredLayersSorted) :=
  ⟨by rfl, by decide⟩

/-- C5 (amended): for every Cell returned by a successful parse, every
layer name is lowercase (equal to its own lowercasing), and each of the
four required names occurs among the layer names; names beyond the
required set are not excluded. -/
theorem c5_layer_names (lines : List String) (cell : CellSpec)
    (h : parse_cell_spec_lines lines = .ok cell) :
    (∀ l ∈ cell.layers, l.name = pyLower l.name) ∧
    (∀ r ∈ requiredLayersSorted, ∃ l ∈ cell.layers, l.name = r) := by
  obtain ⟨st, hscan, hbuild, hnum⟩ := parse_ok_inv lines cell h
  obtain ⟨hlay, hmiss⟩ := validateBuild_ok_inv st cell hbuild
  have hlower : ∀ l ∈ cell.layers, l.name = pyLower l.name := by
    rw [hlay]
    exact scanDocument_layers_lower lines.length lines initState st hscan (by simp [initState])
  refine ⟨hlower, ?_⟩
  intro r hr
  have hfound : foundLayerName st.layers r = true := by
    have := List.filter_eq_nil_iff.mp hmiss r hr
    simpa using this
  obtain ⟨l, hl, hname⟩ := List.any_eq_true.mp hfound
  refine ⟨l, by rw [hlay]; exact hl, ?_⟩
  have hn : pyLower l.name = r := by simpa using hname
  have : l.name = pyLower l.name := hlower l (by rw [hlay]; exact hl)
  rw [this, hn]

theorem c5_layer_names_witness :
    (∀ l ∈ extraCell.layers, l.name = pyLower l.name) ∧
    (∀ r ∈ requiredLayersSorted, ∃ l ∈ extraCell.layers, l.name = r) :=
  c5_layer_names extraLayerLines extraCell (by rfl)

/-- Helper: a list always contains its own suffix contiguously. -/
theorem seqContains_suffix : ∀ (pre sub : List Char), seqContains (pre ++ sub) sub = true := by
  intro pre sub
  induction pre with
  | nil =>
    rw [seqContains.eq_def]
    simp [List.isPrefixOf_iff_prefix]
  | cons c rest ih =>
    rw [seqContains.eq_def]
    split
    · rfl
    · simpa using ih

/-- Helper: a string contains its own suffix as a substring. -/
theorem strContainsSub_append (a b : String) : strContainsSub (a ++ b) b = true := by
  show seqContains (a ++ b).data b.data = true
  rw [String.data_append]
  exact seqContains_suffix a.data b.data

/-- C6 counterexample: the claim promises that a data row with fewer than
4 cells fails with a message identifying the offending row, but the
parser's message for that defect is fixed text that does not contain the
row; shown on a full document whose kernel row has 2 cells.  (The
non-integer message, by contrast, does embed the row, in its
whitespace-stripped form.) -/
theorem c6_short_row_counterexample :
    parse_cell_spec_lines shortRowLines =
      .error "Compute Layers row must have at least 4 columns." ∧
    strContainsSub "Compute Layers row must have at least 4 columns."
      "| kernel | 1 |" = false :=
  ⟨by rfl, by rfl⟩

/-- C6 (amended): for a compute-layer data row reached by the data-row
loop (non-blank, `|`-prefixed, not a stray separator row): fewer than 4
cells fails the parse with the fixed message "Compute Layers row must
have at least 4 columns." (which does not name the row), and cells 2–4
failing integer conversion fails the parse with a message that embeds the
offending row text (as stripped by the scanner). -/
theorem c6_malformed_rows (lraw : String) (rest : List String) (acc : List LayerSpec)
    (hstop : stopsTable lraw = false)
    (hsep : isSeparatorRow (pyStrip lraw) = false) :
    ((rowCells (pyStrip lraw)).length < 4 →
      layersRows (lraw :: rest) acc =
        .error "Compute Layers row must have at least 4 columns.") ∧
    (4 ≤ (rowCells (pyStrip lraw)).length →
      (pyInt ((rowCells (pyStrip lraw)).getD 1 "") = none ∨
       pyInt ((rowCells (pyStrip lraw)).getD 2 "") = none ∨
       pyInt ((rowCells (pyStrip lraw)).getD 3 "") = none) →
      layersRows (lraw :: rest) acc =
        .error ("Invalid numeric values in compute layer row: " ++ pyStrip lraw) ∧
      strContainsSub ("Invalid numeric values in compute layer row: " ++ pyStrip lraw)
        (pyStrip lraw) = true) := by
  have hstop' : (pyStrip lraw == "" || !(pyStartsWith (pyStrip lraw) "|")) = false := hstop
  constructor
  · intro hlen
    simp only [layersRows, hstop', Bool.false_eq_true, if_false, hsep, if_pos hlen]
  · intro hlen hbad
    refine ⟨?_, strContainsSub_append _ _⟩
    simp only [layersRows, hstop', Bool.false_eq_true, if_false, hsep]
    rw [if_neg (by omega)]
    cases hpy1 : pyInt ((rowCells (pyStrip lraw)).getD 1 "") <;>
      cases hpy2 : pyInt ((rowCells (pyStrip lraw)).getD 2 "") <;>
        cases hpy3 : pyInt ((rowCells (pyStrip lraw)).getD 3 "") <;>
          simp_all

theorem c6_malformed_rows_witness :
    stopsTable "| kernel | a | 512 | 2 |" = false ∧
    isSeparatorRow (pyStrip "| kernel | a | 512 | 2 |") = false ∧
    (4 ≤ (rowCells (pyStrip "| kernel | a | 512 | 2 |")).length) ∧
    (layersRows ["| kernel | a | 512 | 2 |"] [] =
      .error ("Invalid numeric values in compute layer row: " ++
        pyStrip "| kernel | a | 512 | 2 |") ∧
     strContainsSub ("Invalid numeric values in compute layer row: " ++
        pyStrip "| kernel | a | 512 | 2 |") (pyStrip "| kernel | a | 512 | 2 |") = true) :=
  ⟨by rfl, by rfl, by decide,
    (c6_malformed_rows "| kernel | a | 512 | 2 |" [] [] (by rfl) (by rfl)).2
      (by decide) (Or.inl (by rfl))⟩

/-- Helper: the layers data-row loop consumes exactly a block of
non-stopping rows and returns the rest unconsumed, with the first
remaining line (if any) a stopping line. -/
theorem layersRows_split :
    ∀ (body : List String) (acc ls : List LayerSpec) (rem : List String),
      layersRows body acc = .ok (ls, rem) →
      ∃ rows, body = rows ++ rem ∧ (∀ r ∈ rows, stopsTable r = false) ∧
        (rem = [] ∨ ∃ h2 t, rem = h2 :: t ∧ stopsTable h2 = true) := by
  intro body
  induction body with
  | nil =>
    intro acc ls rem h
    obtain ⟨rfl, rfl⟩ : ls = acc ∧ rem = [] := by cases h; exact ⟨rfl, rfl⟩
    exact ⟨[], rfl, by simp, Or.inl rfl⟩
  | cons lraw rest ih =>
    intro acc ls rem h
    simp only [layersRows] at h
    split at h
    · rename_i hc
      obtain ⟨rfl, rfl⟩ : ls = acc ∧ rem = lraw :: rest := by cases h; exact ⟨rfl, rfl⟩
      exact ⟨[], rfl, by simp, Or.inr ⟨lraw, rest, rfl, hc⟩⟩
    · rename_i hc
      have hcf : stopsTable lraw = false := Bool.eq_false_iff.mpr hc
      split at h
      · obtain ⟨rows, hb, hrows, hrem⟩ := ih acc ls rem h
        exact ⟨lraw :: rows, by rw [List.cons_append, hb],
          by intro r hr; rcases List.mem_cons.mp hr with rfl | hr2
             · exact hcf
             · exact hrows r hr2,
          hrem⟩
      · split at h
        · cases h
        · split at h
          · obtain ⟨rows, hb, hrows, hrem⟩ := ih _ ls rem h
            exact ⟨lraw :: rows, by rw [List.cons_append, hb],
              by intro r hr; rcases List.mem_cons.mp hr with rfl | hr2
                 · exact hcf
                 · exact hrows r hr2,
              hrem⟩
          · cases h

/-- Helper: the key-value data-row loop has the same stop discipline. -/
theorem kvRows_split :
    ∀ (body : List String) (acc d : List (String × String)) (rem : List String),
      kvRows body acc = .ok (d, rem) →
      ∃ rows, body = rows ++ rem ∧ (∀ r ∈ rows, stopsTable r = false) ∧
        (rem = [] ∨ ∃ h2 t, rem = h2 :: t ∧ stopsTable h2 = true) := by
  intro body
  induction body with
  | nil =>
    intro acc d rem h
    obtain ⟨rfl, rfl⟩ : d = acc ∧ rem = [] := by cases h; exact ⟨rfl, rfl⟩
    exact ⟨[], rfl, by simp, Or.inl rfl⟩
  | cons lraw rest ih =>
    intro acc d rem h
    simp only [kvRows] at h
    split at h
    · rename_i hc
      obtain ⟨rfl, rfl⟩ : d = acc ∧ rem = lraw :: rest := by cases h; exact ⟨rfl, rfl⟩
      exact ⟨[], rfl, by simp, Or.inr ⟨lraw, rest, rfl, hc⟩⟩
    · rename_i hc
      have hcf : stopsTable lraw = false := Bool.eq_false_iff.mpr hc
      split at h
      · obtain ⟨rows, hb, hrows, hrem⟩ := ih acc d rem h
        exact ⟨lraw :: rows, by rw [List.cons_append, hb],
          by intro r hr; rcases List.mem_cons.mp hr with rfl | hr2
             · exact hcf
             · exact hrows r hr2,
          hrem⟩
      · split at h
        · cases h
        · obtain ⟨rows, hb, hrows, hrem⟩ := ih _ d rem h
          exact ⟨lraw :: rows, by rw [List.cons_append, hb],
            by intro r hr; rcases List.mem_cons.mp hr with rfl | hr2
               · exact hcf
               · exact hrows r hr2,
            hrem⟩

/-- The common stopping-contract of a table scanner's result. -/
def scannerStopContract (rest rem : List String) : Prop :=
  ∃ blanks hdr sep rows,
    rest = blanks ++ hdr :: sep :: (rows ++ rem) ∧
    (∀ b ∈ blanks, pyStrip b = "") ∧
    pyStartsWith (pyStrip hdr) "|" = true ∧
    pyStartsWith (pyStrip sep) "|" = true ∧
    (∀ r ∈ rows, stopsTable r = false) ∧
    (rem = [] ∨ ∃ h2 t, rem = h2 :: t ∧ stopsTable h2 = true)

/-- Helper: `_parse_layers_table` satisfies the stopping contract. -/
theorem parse_layers_table_stop (rest : List String) (ls : List LayerSpec)
    (rem : List String) (h : _parse_layers_table rest = .ok (ls, rem)) :
    scannerStopContract rest rem := by
  unfold _parse_layers_table at h
  cases hsb : skipBlankLines rest with
  | nil =>
    simp only [hsb] at h
    exact Except.noConfusion h
  | cons hdr afterHdr =>
    cases afterHdr with
    | nil =>
      simp only [hsb] at h
      split at h <;> exact Except.noConfusion h
    | cons sep body =>
      simp only [hsb] at h
      split at h
      · exact Except.noConfusion h
      · rename_i hpipe1
        split at h
        · exact Except.noConfusion h
        · rename_i hpipe2
          obtain ⟨rows, hb, hrows, hrem⟩ := layersRows_split body [] ls rem h
          refine ⟨rest.takeWhile (fun l => pyStrip l == ""), hdr, sep, rows, ?_, ?_, ?_, ?_, hrows, hrem⟩
          · conv_lhs => rw [← List.takeWhile_append_dropWhile
              (p := fun l => pyStrip l == "") (l := rest)]
            rw [show rest.dropWhile (fun l => pyStrip l == "") = skipBlankLines rest from rfl,
              hsb, hb]
          · intro b hbmem
            have := List.mem_takeWhile_imp hbmem
            simpa using this
          · simpa using hpipe1
          · simpa using hpipe2

/-- Helper: `_parse_kv_table` satisfies the stopping contract. -/
theorem parse_kv_table_stop (rest : List String) (d : List (String × String))
    (rem : List String) (h : _parse_kv_table rest = .ok (d, rem)) :
    scannerStopContract rest rem := by
  unfold _parse_kv_table at h
  cases hsb : skipBlankLines rest with
  | nil =>
    simp only [hsb] at h
    exact Except.noConfusion h
  | cons hdr afterHdr =>
    cases afterHdr with
    | nil =>
      simp only [hsb] at h
      split at h <;> exact Except.noConfusion h
    | cons sep body =>
      simp only [hsb] at h
      split at h
      · exact Except.noConfusion h
      · rename_i hpipe1
        split at h
        · exact Except.noConfusion h
        · rename_i hpipe2
          obtain ⟨rows, hb, hrows, hrem⟩ := kvRows_split body [] d rem h
          refine ⟨rest.takeWhile (fun l => pyStrip l == ""), hdr, sep, rows, ?_, ?_, ?_, ?_, hrows, hrem⟩
          · conv_lhs => rw [← List.takeWhile_append_dropWhile
              (p := fun l => pyStrip l == "") (l := rest)]
            rw [show rest.dropWhile (fun l => pyStrip l == "") = skipBlankLines rest from rfl,
              hsb, hb]
          · intro b hbmem
            have := List.mem_takeWhile_imp hbmem
            simpa using this
          · simpa using hpipe1
          · simpa using hpipe2

/-- C7: on success, both table scanners consume leading blanks, the header
row and the separator row, then exactly a block of non-stopping
(non-blank, `|`-prefixed) rows; the returned cursor is the suffix starting
at the first stopping line, unconsumed — and the document scanner resumes
classification at exactly that suffix (shown for each of the three
section-header dispatches). -/
theorem c7_scanners_stop_unconsumed (rest : List String) :
    (∀ ls rem, _parse_layers_table rest = .ok (ls, rem) → scannerStopContract rest rem) ∧
    (∀ d rem, _parse_kv_table rest = .ok (d, rem) → scannerStopContract rest rem) ∧
    (∀ fuel st lraw (ls : List LayerSpec) rem,
      pyStartsWith (pyStrip lraw) "# " = false →
      pyStartsWith (pyLower (pyStrip lraw)) "realm:" = false →
      pyStartsWith (pyLower (pyStrip lraw)) "region:" = false →
      pyStartsWith (pyLower (pyStrip lraw)) "## compute layers" = true →
      _parse_layers_table rest = .ok (ls, rem) →
      scanDocument (fuel + 1) (lraw :: rest) st =
        scanDocument fuel rem { st with layers := ls }) ∧
    (∀ fuel st lraw (d : List (String × String)) rem,
      pyStartsWith (pyStrip lraw) "# " = false →
      pyStartsWith (pyLower (pyStrip lraw)) "realm:" = false →
      pyStartsWith (pyLower (pyStrip lraw)) "region:" = false →
      pyStartsWith (pyLower (pyStrip lraw)) "## compute layers" = false →
      pyStartsWith (pyLower (pyStrip lraw)) "## database" = true →
      _parse_kv_table rest = .ok (d, rem) →
      scanDocument (fuel + 1) (lraw :: rest) st =
        scanDocument fuel rem { st with db_settings := d }) ∧
    (∀ fuel st lraw (d : List (String × String)) rem,
      pyStartsWith (pyStrip lraw) "# " = false →
      pyStartsWith (pyLower (pyStrip lraw)) "realm:" = false →
      pyStartsWith (pyLower (pyStrip lraw)) "region:" = false →
      pyStartsWith (pyLower (pyStrip lraw)) "## compute layers" = false →
      pyStartsWith (pyLower (pyStrip lraw)) "## database" = false →
      pyStartsWith (pyLower (pyStrip lraw)) "## cache" = true →
      _parse_kv_table rest = .ok (d, rem) →
      scanDocument (fuel + 1) (lraw :: rest) st =
        scanDocument fuel rem { st with cache_settings := d }) := by
  refine ⟨fun ls rem h => parse_layers_table_stop rest ls rem h,
    fun d rem h => parse_kv_table_stop rest d rem h, ?_, ?_, ?_⟩
  · intro fuel st lraw ls rem h1 h2 h3 h4 htab
    simp only [scanDocument, h1, h2, h3, h4, htab, Bool.false_eq_true, if_false, if_true]
  · intro fuel st lraw d rem h1 h2 h3 h4 h5 htab
    simp only [scanDocument, h1, h2, h3, h4, h5, htab, Bool.false_eq_true, if_false, if_true]
  · intro fuel st lraw d rem h1 h2 h3 h4 h5 h6 htab
    simp only [scanDocument, h1, h2, h3, h4, h5, h6, htab, Bool.false_eq_true, if_false, if_true]

theorem c7_scanners_stop_unconsumed_witness :
    _parse_layers_table
        ["| Layer | vCPU | Memory MB | Tasks |", "|---|---|---|---|",
         "| kernel | 1 | 2 | 3 |", "", "tail"] =
      .ok ([⟨"kernel", 1, 2, 3⟩], ["", "tail"]) ∧
    scannerStopContract
      ["| Layer | vCPU | Memory MB | Tasks |", "|---|---|---|---|",
       "| kernel | 1 | 2 | 3 |", "", "tail"]
      ["", "tail"] :=
  ⟨by rfl,
    (c7_scanners_stop_unconsumed
        ["| Layer | vCPU | Memory MB | Tasks |", "|---|---|---|---|",
         "| kernel | 1 | 2 | 3 |", "", "tail"]).1
      [⟨"kernel", 1, 2, 3⟩] ["", "tail"] (by rfl)⟩

/-- Helper: the frame relation holds when the scan returns the
accumulators untouched. -/
theorem fieldFrame_init (st₁ st₂ : ScanState) : fieldFrame st₁ st₂ st₁ st₂ :=
  ⟨Or.inl ⟨rfl, rfl⟩, Or.inl ⟨rfl, rfl⟩, Or.inl ⟨rfl, rfl⟩,
   Or.inl ⟨rfl, rfl⟩, Or.inl ⟨rfl, rfl⟩, Or.inl ⟨rfl, rfl⟩⟩

/-- Helper: overwriting `cell_name` identically in both runs preserves the
frame relation downwards. -/
theorem fieldFrame_set_cell_name (st₁ st₂ r₁ r₂ : ScanState) (v : Option String)
    (h : fieldFrame { st₁ with cell_name := v } { st₂ with cell_name := v } r₁ r₂) :
    fieldFrame st₁ st₂ r₁ r₂ := by
  obtain ⟨h1, h2, h3, h4, h5, h6⟩ := h
  refine ⟨?_, h2, h3, h4, h5, h6⟩
  rcases h1 with ⟨a, b⟩ | hh
  · exact Or.inr (a.trans b.symm)
  · exact Or.inr hh

/-- Helper: same, for `realm_name`. -/
theorem fieldFrame_set_realm (st₁ st₂ r₁ r₂ : ScanState) (v : Option String)
    (h : fieldFrame { st₁ with realm_name := v } { st₂ with realm_name := v } r₁ r₂) :
    fieldFrame st₁ st₂ r₁ r₂ := by
  obtain ⟨h1, h2, h3, h4, h5, h6⟩ := h
  refine ⟨h1, ?_, h3, h4, h5, h6⟩
  rcases h2 with ⟨a, b⟩ | hh
  · exact Or.inr (a.trans b.symm)
  · exact Or.inr hh

/-- Helper: same, for `region`. -/
theorem fieldFrame_set_region (st₁ st₂ r₁ r₂ : ScanState) (v : Option String)
    (h : fieldFrame { st₁ with region := v } { st₂ with region := v } r₁ r₂) :
    fieldFrame st₁ st₂ r₁ r₂ := by
  obtain ⟨h1, h2, h3, h4, h5, h6⟩ := h
  refine ⟨h1, h2, ?_, h4, h5, h6⟩
  rcases h3 with ⟨a, b⟩ | hh
  · exact Or.inr (a.trans b.symm)
  · exact Or.inr hh

/-- Helper: same, for `layers` (a later section's rows replace, not merge). -/
theorem fieldFrame_set_layers (st₁ st₂ r₁ r₂ : ScanState) (v : List LayerSpec)
    (h : fieldFrame { st₁ with layers := v } { st₂ with layers := v } r₁ r₂) :
    fieldFrame st₁ st₂ r₁ r₂ := by
  obtain ⟨h1, h2, h3, h4, h5, h6⟩ := h
  refine ⟨h1, h2, h3, ?_, h5, h6⟩
  rcases h4 with ⟨a, b⟩ | hh
  · exact Or.inr (a.trans b.symm)
  · exact Or.inr hh

/-- Helper: same, for `db_settings`. -/
theorem fieldFrame_set_db (st₁ st₂ r₁ r₂ : ScanState) (v : List (String × String))
    (h : fieldFrame { st₁ with db_settings := v } { st₂ with db_settings := v } r₁ r₂) :
    fieldFrame st₁ st₂ r₁ r₂ := by
  obtain ⟨h1, h2, h3, h4, h5, h6⟩ := h
  refine ⟨h1, h2, h3, h4, ?_, h6⟩
  rcases h5 with ⟨a, b⟩ | hh
  · exact Or.inr (a.trans b.symm)
  · exact Or.inr hh

/-- Helper: same, for `cache_settings`. -/
theorem fieldFrame_set_cache (st₁ st₂ r₁ r₂ : ScanState) (v : List (String × String))
    (h : fieldFrame { st₁ with cache_settings := v } { st₂ with cache_settings := v } r₁ r₂) :
    fieldFrame st₁ st₂ r₁ r₂ := by
  obtain ⟨h1, h2, h3, h4, h5, h6⟩ := h
  refine ⟨h1, h2, h3, h4, h5, ?_⟩
  rcases h6 with ⟨a, b⟩ | hh
  · exact Or.inr (a.trans b.symm)
  · exact Or.inr hh

/-- C8: the scan's result does not depend on what was previously stored in
an accumulator that a later line overwrites: running the same suffix from
two different accumulator states yields the same errors, and on success
every field either passed through untouched in both runs or ended equal in
both — each later metadata match simply overwrites the stored value, a
later same-named section's parse replaces the earlier one's data, and no
duplicate-detection error is ever raised. -/
theorem c8_last_occurrence_wins :
    ∀ (fuel : Nat) (rest : List String) (st₁ st₂ : ScanState),
      (∀ e, scanDocument fuel rest st₁ = .error e → scanDocument fuel rest st₂ = .error e) ∧
      (∀ r₁ r₂, scanDocument fuel rest st₁ = .ok r₁ → scanDocument fuel rest st₂ = .ok r₂ →
        fieldFrame st₁ st₂ r₁ r₂) := by
  intro fuel
  induction fuel with
  | zero =>
    intro rest st₁ st₂
    constructor
    · intro e he
      cases rest <;> simp only [scanDocument] at he <;> exact Except.noConfusion he
    · intro r₁ r₂ h1 h2
      cases rest <;> simp only [scanDocument] at h1 h2 <;>
        (cases h1; cases h2; exact fieldFrame_init st₁ st₂)
  | succ fuel ih =>
    intro rest st₁ st₂
    cases rest with
    | nil =>
      constructor
      · intro e he
        simp only [scanDocument] at he
        exact Except.noConfusion he
      · intro r₁ r₂ h1 h2
        simp only [scanDocument] at h1 h2
        cases h1; cases h2
        exact fieldFrame_init st₁ st₂
    | cons lraw rest2 =>
      by_cases h1 : pyStartsWith (pyStrip lraw) "# " = true
      · constructor
        · intro e he
          simp only [scanDocument, h1, if_true] at he ⊢
          exact (ih rest2 _ _).1 e he
        · intro r₁ r₂ hr1 hr2
          simp only [scanDocument, h1, if_true] at hr1 hr2
          exact fieldFrame_set_cell_name st₁ st₂ r₁ r₂ _
            ((ih rest2 _ _).2 r₁ r₂ hr1 hr2)
      · by_cases h2 : pyStartsWith (pyLower (pyStrip lraw)) "realm:" = true
        · constructor
          · intro e he
            simp only [scanDocument, h1, h2, Bool.false_eq_true, if_false, if_true] at he ⊢
            exact (ih rest2 _ _).1 e he
          · intro r₁ r₂ hr1 hr2
            simp only [scanDocument, h1, h2, Bool.false_eq_true, if_false, if_true] at hr1 hr2
            exact fieldFrame_set_realm st₁ st₂ r₁ r₂ _
              ((ih rest2 _ _).2 r₁ r₂ hr1 hr2)
        · by_cases h3 : pyStartsWith (pyLower (pyStrip lraw)) "region:" = true
          · constructor
            · intro e he
              simp only [scanDocument, h1, h2, h3, Bool.false_eq_true, if_false, if_true] at he ⊢
              exact (ih rest2 _ _).1 e he
            · intro r₁ r₂ hr1 hr2
              simp only [scanDocument, h1, h2, h3, Bool.false_eq_true, if_false, if_true] at hr1 hr2
              exact fieldFrame_set_region st₁ st₂ r₁ r₂ _
                ((ih rest2 _ _).2 r₁ r₂ hr1 hr2)
          · by_cases h4 : pyStartsWith (pyLower (pyStrip lraw)) "## compute layers" = true
            · cases htab : _parse_layers_table rest2 with
              | error e2 =>
                constructor
                · intro e he
                  simp only [scanDocument, h1, h2, h3, h4, htab,
                    Bool.false_eq_true, if_false, if_true] at he ⊢
                  exact he
                · intro r₁ r₂ hr1 hr2
                  simp only [scanDocument, h1, h2, h3, h4, htab,
                    Bool.false_eq_true, if_false, if_true] at hr1
                  exact Except.noConfusion hr1
              | ok lsrem =>
                obtain ⟨ls, rem⟩ := lsrem
                constructor
                · intro e he
                  simp only [scanDocument, h1, h2, h3, h4, htab,
                    Bool.false_eq_true, if_false, if_true] at he ⊢
                  exact (ih rem _ _).1 e he
                · intro r₁ r₂ hr1 hr2
                  simp only [scanDocument, h1, h2, h3, h4, htab,
                    Bool.false_eq_true, if_false, if_true] at hr1 hr2
                  exact fieldFrame_set_layers st₁ st₂ r₁ r₂ ls
                    ((ih rem _ _).2 r₁ r₂ hr1 hr2)
            · by_cases h5 : pyStartsWith (pyLower (pyStrip lraw)) "## database" = true
              · cases htab : _parse_kv_table rest2 with
                | error e2 =>
                  constructor
                  · intro e he
                    simp only [scanDocument, h1, h2, h3, h4, h5, htab,
                      Bool.false_eq_true, if_false, if_true] at he ⊢
                    exact he
                  · intro r₁ r₂ hr1 hr2
                    simp only [scanDocument, h1, h2, h3, h4, h5, htab,
                      Bool.false_eq_true, if_false, if_true] at hr1
                    exact Except.noConfusion hr1
                | ok drem =>
                  obtain ⟨d, rem⟩ := drem
                  constructor
                  · intro e he
                    simp only [scanDocument, h1, h2, h3, h4, h5, htab,
                      Bool.false_eq_true, if_false, if_true] at he ⊢
                    exact (ih rem _ _).1 e he
                  · intro r₁ r₂ hr1 hr2
                    simp only [scanDocument, h1, h2, h3, h4, h5, htab,
                      Bool.false_eq_true, if_false, if_true] at hr1 hr2
                    exact fieldFrame_set_db st₁ st₂ r₁ r₂ d
                      ((ih rem _ _).2 r₁ r₂ hr1 hr2)
              · by_cases h6 : pyStartsWith (pyLower (pyStrip lraw)) "## cache" = true
                · cases htab : _parse_kv_table rest2 with
                  | error e2 =>
                    constructor
                    · intro e he
                      simp only [scanDocument, h1, h2, h3, h4, h5, h6, htab,
                        Bool.false_eq_true, if_false, if_true] at he ⊢
                      exact he
                    · intro r₁ r₂ hr1 hr2
                      simp only [scanDocument, h1, h2, h3, h4, h5, h6, htab,
                        Bool.false_eq_true, if_false, if_true] at hr1
                      exact Except.noConfusion hr1
                  | ok drem =>
                    obtain ⟨d, rem⟩ := drem
                    constructor
                    · intro e he
                      simp only [scanDocument, h1, h2, h3, h4, h5, h6, htab,
                        Bool.false_eq_true, if_false, if_true] at he ⊢
                      exact (ih rem _ _).1 e he
                    · intro r₁ r₂ hr1 hr2
                      simp only [scanDocument, h1, h2, h3, h4, h5, h6, htab,
                        Bool.false_eq_true, if_false, if_true] at hr1 hr2
                      exact fieldFrame_set_cache st₁ st₂ r₁ r₂ d
                        ((ih rem _ _).2 r₁ r₂ hr1 hr2)
                · constructor
                  · intro e he
                    simp only [scanDocument, h1, h2, h3, h4, h5, h6,
                      Bool.false_eq_true, if_false] at he ⊢
                    exact (ih rest2 _ _).1 e he
                  · intro r₁ r₂ hr1 hr2
                    simp only [scanDocument, h1, h2, h3, h4, h5, h6,
                      Bool.false_eq_true, if_false] at hr1 hr2
                    exact (ih rest2 _ _).2 r₁ r₂ hr1 hr2

theorem c8_last_occurrence_wins_witness :
    scanDocument dupRealmLines.length dupRealmLines initState =
      .ok { cell_name := some "icc-01", realm_name := some "dev-east",
            region := some "us-east-2", layers := [],
            db_settings := [], cache_settings := [] } ∧
    fieldFrame initState { initState with realm_name := some "overwritten" }
      { cell_name := some "icc-01", realm_name := some "dev-east",
        region := some "us-east-2", layers := [],
        db_settings := [], cache_settings := [] }
      { cell_name := some "icc-01", realm_name := some "dev-east",
        region := some "us-east-2", layers := [],
        db_settings := [], cache_settings := [] } :=
  ⟨by rfl,
    (c8_last_occurrence_wins dupRealmLines.length dupRealmLines initState
        { initState with realm_name := some "overwritten" }).2
      _ _ (by rfl) (by rfl)⟩

/-- Helper: the code's per-layer numeric loop returns exactly the message
of the spec's first failing layer check (vcpu → memory → tasks, layers in
order). -/
theorem validateLayerNumbers_spec (st : ScanState) :
    ∀ ls, validateLayerNumbers ls =
      (match specFirstLayerCheck ls with
       | some chk => Except.error (checkMessage st chk)
       | none => Except.ok ()) := by
  intro ls
  induction ls with
  | nil => rfl
  | cons l rest ih =>
    simp only [validateLayerNumbers, specFirstLayerCheck]
    by_cases hv : l.vcpu ≤ 0
    · simp [hv, checkMessage]
    · by_cases hm : l.memory_mb ≤ 0
      · simp [hv, hm, checkMessage]
      · by_cases ht : l.tasks ≤ 0
        · simp [hv, hm, ht, checkMessage]
        · simp [hv, hm, ht, ih]

set_option maxHeartbeats 1000000 in
/-- C4: for every input whose document scan succeeds, the parse outcome is
decided by the spec's fixed check order — if any check of §4.5 fails, the
parse error is the message of the *first* failing check (the nine
structural checks in order, all before any numeric check, then the layers
in parsed order with vcpu → memory_mb → tasks, then storage_gb, then
nodes; one error only, no aggregation), and if no check fails the parse
returns the assembled aggregate. -/
theorem c4_error_is_first_failing_check (lines : List String) (st : ScanState)
    (hscan : scanDocument lines.length lines initState = .ok st) :
    (∀ chk, specFirstFailingCheck st = some chk →
      parse_cell_spec_lines lines = .error (checkMessage st chk)) ∧
    (specFirstFailingCheck st = none →
      parse_cell_spec_lines lines = .ok (buildCell st)) := by
  have hp : parse_cell_spec_lines lines =
      (match specFirstFailingCheck st with
       | some chk => Except.error (checkMessage st chk)
       | none => Except.ok (buildCell st)) := by
    unfold parse_cell_spec_lines
    simp only [hscan]
    unfold validateBuild specFirstFailingCheck
    cases b1 : truthyOpt st.cell_name with
    | false => simp [b1, checkMessage]
    | true =>
    cases b2 : truthyOpt st.realm_name with
    | false => simp [b1, b2, checkMessage]
    | true =>
    cases b3 : truthyOpt st.region with
    | false => simp [b1, b2, b3, checkMessage]
    | true =>
    cases b4 : st.layers.isEmpty with
    | true => simp [b1, b2, b3, b4, checkMessage]
    | false =>
    cases b5 : (missingLayers st.layers).isEmpty with
    | false => simp [b1, b2, b3, b4, b5, checkMessage]
    | true =>
    cases b6 : st.db_settings.isEmpty with
    | true => simp [b1, b2, b3, b4, b5, b6, checkMessage]
    | false =>
    cases b7 : ((dictFind st.db_settings "instance_class").isSome &&
        (dictFind st.db_settings "storage_gb").isSome) with
    | false => simp [b1, b2, b3, b4, b5, b6, b7, checkMessage]
    | true =>
    cases hpy1 : pyInt ((dictFind st.db_settings "storage_gb").getD "") with
    | none => simp [b1, b2, b3, b4, b5, b6, b7, hpy1, checkMessage]
    | some sg =>
    cases b8 : st.cache_settings.isEmpty with
    | true => simp [b1, b2, b3, b4, b5, b6, b7, hpy1, b8, checkMessage]
    | false =>
    cases b9 : ((dictFind st.cache_settings "node_type").isSome &&
        (dictFind st.cache_settings "nodes").isSome) with
    | false => simp [b1, b2, b3, b4, b5, b6, b7, hpy1, b8, b9, checkMessage]
    | true =>
    cases hpy2 : pyInt ((dictFind st.cache_settings "nodes").getD "") with
    | none => simp [b1, b2, b3, b4, b5, b6, b7, hpy1, b8, b9, hpy2, checkMessage]
    | some nd =>
    simp only [b1, b2, b3, b4, b5, b6, b7, hpy1, b8, b9, hpy2, Bool.not_true,
      Bool.not_false, Bool.false_eq_true, Bool.true_eq_false, if_false, if_true,
      Option.isNone_some, _validate_cell_spec_numbers]
    rw [validateLayerNumbers_spec st]
    cases hlc : specFirstLayerCheck st.layers with
    | some chk => simp
    | none =>
      by_cases hsg : sg ≤ 0
      · simp [hsg, hpy1, checkMessage]
      · by_cases hnd : nd ≤ 0
        · simp [hsg, hnd, hpy1, hpy2, checkMessage]
        · simp [hsg, hnd, hpy1, hpy2, buildCell]
  constructor
  · intro chk hchk
    rw [hp, hchk]
  · intro hnone
    rw [hp, hnone]

theorem c4_error_is_first_failing_check_witness :
    specFirstFailingCheck zeroTasksState =
      some (.layerTasks ⟨"platform", 512, 1024, 0⟩) ∧
    parse_cell_spec_lines zeroTasksLines =
      .error (checkMessage zeroTasksState (.layerTasks ⟨"platform", 512, 1024, 0⟩)) ∧
    checkMessage zeroTasksState (.layerTasks ⟨"platform", 512, 1024, 0⟩) =
      "Layer 'platform' tasks must be positive." :=
  ⟨by rfl,
    (c4_error_is_first_failing_check zeroTasksLines zeroTasksState (by rfl)).1
      (.layerTasks ⟨"platform", 512, 1024, 0⟩) (by rfl),
    by rfl⟩

end CellCli
